import Mathlib

/-!
Verification development for the dayawarga-senyar location-sync scripts.

The definitions below are shallow embeddings of the Python sources:

* `scripts/lookup_kecamatan_from_desa.py` — name normalization
  (`normalize_name`, `normalize_for_fuzzy`) and the desa lookup with a
  fuzzy fallback;
* `scripts/update_faskes_kecamatan_desa.py` — the hierarchical
  administrative-code resolver (`load_location_lookups`,
  `normalize_kab_name`, `load_faskes_data`) and the ODK client's
  `update_entity` status handling;
* `scripts/sync_entity_uuids.py` — entity-identity reconciliation
  (`main`'s match-and-update loop, `update_pg_entity_id`);
* `scripts/update_odk_entities.py` — the property-sync step
  (`get_pg_data_via_docker`'s row cleaning and `main`'s per-entity
  update decision).

Python `dict` state is modelled with association lists where a later
binding for the same key overwrites an earlier one (`lookupLast`),
mirroring dict assignment order.
-/

/-- Lookup in an association list where a LATER binding wins, mirroring a
Python dict built by iterated assignment. -/
def lookupLast {κ α : Type} [DecidableEq κ] : List (κ × α) → κ → Option α
  | [], _ => none
  | p :: rest, k =>
    match lookupLast rest k with
    | some v => some v
    | none => if p.1 = k then some p.2 else none

theorem lookupLast_nil {κ α : Type} [DecidableEq κ] (k : κ) :
    lookupLast ([] : List (κ × α)) k = none := rfl

theorem lookupLast_cons {κ α : Type} [DecidableEq κ] (p : κ × α)
    (rest : List (κ × α)) (k : κ) :
    lookupLast (p :: rest) k =
      match lookupLast rest k with
      | some v => some v
      | none => if p.1 = k then some p.2 else none := rfl

/-- If no key in the list equals `k`, the lookup misses. -/
theorem lookupLast_eq_none {κ α : Type} [DecidableEq κ]
    (l : List (κ × α)) (k : κ) (h : ∀ p ∈ l, p.1 ≠ k) :
    lookupLast l k = none := by
  induction l with
  | nil => rfl
  | cons p rest ih =>
    have hrest : lookupLast rest k = none :=
      ih (fun q hq => h q (List.mem_cons_of_mem p hq))
    simp only [lookupLast, hrest]
    have : p.1 ≠ k := h p (List.mem_cons_self p rest)
    simp [this]

/-! ## Name Normalizer (`lookup_kecamatan_from_desa.py`)

`normalize_name` (lines 24–35): lowercase, `strip()`, remove one leading
administrative prefix (`re.sub(r'^(desa|gampong|kelurahan|kp\.?|ds\.?)\s+', '', name)`,
which substitutes at most once because of the `^` anchor), collapse
whitespace runs to a single space, then delete characters matching
`[^\w\s]`.

`normalize_for_fuzzy` (lines 38–49): `normalize_name`, remove all `' '`
characters, then the sequential substitutions `oe→u`, `dj→j`, `tj→c`
(Python `str.replace`, left-to-right and non-overlapping). -/

/-- Python's ASCII `\s` class (also what `str.strip()` removes). -/
def isWs (c : Char) : Bool :=
  c = ' ' || c = '\t' || c = '\n' || c = '\r' || c = '\x0b' || c = '\x0c'

/-- Python's ASCII `\w` class. -/
def isWordChar (c : Char) : Bool := c.isAlphanum || c = '_'

/-- `str.strip()`: drop whitespace from both ends. -/
def pyStrip (l : List Char) : List Char :=
  ((l.dropWhile isWs).reverse.dropWhile isWs).reverse

/-- Match one regex alternative `word` followed by `\s+` at the start of
`l`; on success return the remainder with the prefix and the whitespace
run removed (the greedy `\s+` eats the whole run). -/
def stripWord (word : List Char) (l : List Char) : Option (List Char) :=
  if l.take word.length = word then
    match l.drop word.length with
    | [] => none
    | c :: rest => if isWs c then some ((c :: rest).dropWhile isWs) else none
  else none

/-- The single anchored substitution
`re.sub(r'^(desa|gampong|kelurahan|kp\.?|ds\.?)\s+', '', ·)`:
alternatives are tried in order, the optional dot greedily first. -/
def stripAdminPrefix (l : List Char) : List Char :=
  ((((((stripWord "desa".data l).orElse fun _ => stripWord "gampong".data l).orElse
      fun _ => stripWord "kelurahan".data l).orElse
      fun _ => stripWord "kp.".data l).orElse
      fun _ => stripWord "kp".data l).orElse
      fun _ => stripWord "ds.".data l).orElse
      (fun _ => stripWord "ds".data l) |>.getD l

/-- Worker for `collapseWs`: `inRun` records whether the previous
character belonged to a whitespace run (whose single `' '` was already
emitted). -/
def collapseWsAux : Bool → List Char → List Char
  | _, [] => []
  | inRun, c :: rest =>
    if isWs c then
      if inRun then collapseWsAux true rest
      else ' ' :: collapseWsAux true rest
    else c :: collapseWsAux false rest

/-- `re.sub(r'\s+', ' ', ·)`: every whitespace run becomes one space. -/
def collapseWs (l : List Char) : List Char := collapseWsAux false l

/-- `re.sub(r'[^\w\s]', '', ·)`: delete punctuation. -/
def stripPunct (l : List Char) : List Char :=
  l.filter (fun c => isWordChar c || isWs c)

/-- `normalize_name` on the character list. -/
def normalizeNameL (l : List Char) : List Char :=
  if l = [] then []
  else stripPunct (collapseWs (stripAdminPrefix (pyStrip (l.map Char.toLower))))

/-- `normalize_name` (lookup_kecamatan_from_desa.py lines 24–35). -/
def normalizeName (s : String) : String := ⟨normalizeNameL s.data⟩

/-- Python `str.replace` with a two-character pattern `a ++ b` and a
one-character replacement `c`: left-to-right, non-overlapping. -/
def replacePair (a b c : Char) : List Char → List Char
  | [] => []
  | [x] => [x]
  | x :: y :: rest =>
    if x = a ∧ y = b then c :: replacePair a b c rest
    else x :: replacePair a b c (y :: rest)

/-- `normalize_for_fuzzy` on the character list: `normalize_name`, drop
the `' '` characters, then `oe→u`, `dj→j`, `tj→c` in that order. -/
def normalizeForFuzzyL (l : List Char) : List Char :=
  if l = [] then []
  else
    replacePair 't' 'j' 'c'
      (replacePair 'd' 'j' 'j'
        (replacePair 'o' 'e' 'u'
          ((normalizeNameL l).filter (fun c => !(c = ' ')))))

/-- `normalize_for_fuzzy` (lookup_kecamatan_from_desa.py lines 38–49). -/
def normalizeForFuzzy (s : String) : String := ⟨normalizeForFuzzyL s.data⟩

/-- Python `str.upper()` (ASCII). -/
def pyUpper (s : String) : String := ⟨s.data.map Char.toUpper⟩

/-- Python `str.strip()` on a `String`. -/
def pyStripStr (s : String) : String := ⟨pyStrip s.data⟩

/-- Python `str.startswith(p)`. -/
def pyStartsWith (p s : String) : Bool := s.data.take p.data.length == p.data

/-! ## Hierarchical Code Resolver (`update_faskes_kecamatan_desa.py`)

`load_location_lookups` (lines 113–166) builds dicts: `provinsi` maps an
uppercased name to a code, `kota_kab` maps an uppercased name to a code
(NOT scoped by province), `kecamatan` and `desa` map the pair
`(parent_code, uppercased name)` to a code.  `load_faskes_data`
(lines 207–236) resolves a CSV row's four region names against those
dicts. -/

/-- One row of a backbone CSV: code, name, and the parent-level code
(`id_provinsi` for kota_kab rows, `id_kota_kab` for kecamatan rows,
`id_kec` for desa rows; unused for provinsi rows). -/
structure CsvRow where
  kode : String
  nama : String
  parent : String
deriving DecidableEq

/-- The four lookup dicts built by `load_location_lookups`; only the
code-valued parts used by `load_faskes_data`'s resolution are kept. -/
structure Lookups where
  provinsi : List (String × String)
  kotaKab : List (String × String)
  kecamatan : List ((String × String) × String)
  desa : List ((String × String) × String)

/-- `lookups['provinsi']` (and the same shape for `lookups['kota_kab']`):
rows with a non-empty name and code, keyed by the uppercased name only. -/
def nameKeyedLookup (rows : List CsvRow) : List (String × String) :=
  rows.filterMap (fun r =>
    if pyUpper r.nama ≠ "" ∧ r.kode ≠ "" then some (pyUpper r.nama, r.kode) else none)

/-- `lookups['kecamatan']` / `lookups['desa']`: keyed by
`(parent_code, uppercased name)`. -/
def parentKeyedLookup (rows : List CsvRow) : List ((String × String) × String) :=
  rows.filterMap (fun r =>
    if pyUpper r.nama ≠ "" ∧ r.kode ≠ "" then some ((r.parent, pyUpper r.nama), r.kode) else none)

/-- `load_location_lookups` (lines 113–166). -/
def loadLocationLookups (provRows kabRows kecRows desaRows : List CsvRow) : Lookups :=
  { provinsi := nameKeyedLookup provRows
    kotaKab := nameKeyedLookup kabRows
    kecamatan := parentKeyedLookup kecRows
    desa := parentKeyedLookup desaRows }

/-- `normalize_kab_name` (lines 169–175). -/
def normalizeKabName (nama : String) : String :=
  let n := pyStripStr (pyUpper nama)
  if ¬ pyStartsWith "KAB." n ∧ ¬ pyStartsWith "KOTA" n then "KAB. " ++ n else n

/-- The four resolved codes of one faskes row (`''` = unresolved). -/
structure Resolved where
  selProvinsi : String
  selKotaKab : String
  selKecamatan : String
  selDesa : String
deriving DecidableEq, Repr

/-- Lines 213–215: province code by uppercased name, unscoped,
guarded by a non-empty raw name; `''` on a miss. -/
def resProvinsi (lk : Lookups) (provinsi : String) : String :=
  if provinsi ≠ "" then (lookupLast lk.provinsi (pyUpper provinsi)).getD "" else ""

/-- Lines 217–222: regency code by `normalize_kab_name`, unscoped —
NOT keyed by the resolved province. -/
def resKotaKab (lk : Lookups) (kabupaten : String) : String :=
  if kabupaten ≠ "" then (lookupLast lk.kotaKab (normalizeKabName kabupaten)).getD "" else ""

/-- Lines 224–229: subdistrict code by `(sel_kota_kab, uppercased name)`,
only attempted when both the raw name and the parent code are
non-empty. -/
def resKecamatan (lk : Lookups) (selKotaKab kecamatan : String) : String :=
  if kecamatan ≠ "" ∧ selKotaKab ≠ "" then
    (lookupLast lk.kecamatan (selKotaKab, pyUpper kecamatan)).getD ""
  else ""

/-- Lines 231–236: village code by `(sel_kecamatan, uppercased name)`. -/
def resDesa (lk : Lookups) (selKecamatan desa : String) : String :=
  if desa ≠ "" ∧ selKecamatan ≠ "" then
    (lookupLast lk.desa (selKecamatan, pyUpper desa)).getD ""
  else ""

/-- The per-row resolution of `load_faskes_data` (lines 202–236): the
raw names are `strip()`ed, then the four levels are looked up in
order. -/
def resolveFaskes (lk : Lookups) (provinsiRaw kabupatenRaw kecamatanRaw desaRaw : String) :
    Resolved :=
  let selKotaKab := resKotaKab lk (pyStripStr kabupatenRaw)
  let selKecamatan := resKecamatan lk selKotaKab (pyStripStr kecamatanRaw)
  ⟨resProvinsi lk (pyStripStr provinsiRaw), selKotaKab, selKecamatan,
    resDesa lk selKecamatan (pyStripStr desaRaw)⟩

/-! ## Desa lookup with fuzzy fallback (`lookup_kecamatan_from_desa.py`)

`load_desa_lookup` (lines 52–69) keys both the exact and the fuzzy dict
by the transformed name alone (no parent scoping); `main` (lines
125–137) tries the exact dict first and falls back to the fuzzy dict. -/

/-- The value stored in the desa lookup dicts. -/
structure DesaInfo where
  idKec : String
  nama : String
deriving DecidableEq

/-- `load_desa_lookup`'s exact dict: `normalize_name(nama) ↦ info`,
name-only keys, later rows overwrite earlier ones. -/
def desaExactLookup (rows : List DesaInfo) : List (String × DesaInfo) :=
  rows.filterMap (fun r =>
    if r.nama ≠ "" ∧ r.idKec ≠ "" then some (normalizeName r.nama, r) else none)

/-- `load_desa_lookup`'s fuzzy dict: `normalize_for_fuzzy(nama) ↦ info`. -/
def desaFuzzyLookup (rows : List DesaInfo) : List (String × DesaInfo) :=
  rows.filterMap (fun r =>
    if r.nama ≠ "" ∧ r.idKec ≠ "" then some (normalizeForFuzzy r.nama, r) else none)

/-- `main` lines 125–137: exact lookup on the normalized name, then
fuzzy lookup on the fuzzy key. -/
def lookupDesaInfo (exact fuzzy : List (String × DesaInfo)) (desa : String) :
    Option DesaInfo :=
  match lookupLast exact (normalizeName desa) with
  | some info => some info
  | none => lookupLast fuzzy (normalizeForFuzzy desa)

/-! ## Entity Identity Reconciler (`sync_entity_uuids.py`)

`main` (lines 122–165): build `odk_by_label` (label → uuid, empty labels
skipped, later entities overwrite earlier ones on a label collision),
then for each non-deleted PostgreSQL location compare
`raw_data->>'_entity_id'` with the uuid found for its `nama`;
`update_pg_entity_id` (lines 83–97) rewrites `_entity_id` for the single
row with the given id. -/

/-- An ODK Central entity as consumed by the scripts. -/
structure OdkEntity where
  uuid : String
  label : String
  data : List (String × String)
deriving DecidableEq

/-- A non-deleted row of `locations` as selected by `get_pg_locations`
(lines 66–81): id, display name, and the nullable stored entity id. -/
structure PgLocation where
  id : String
  nama : String
  currentEntityId : Option String
deriving DecidableEq

/-- `odk_by_label` (lines 123–127): label → uuid, skipping empty labels;
a later entity with the same label overwrites an earlier one. -/
def odkByLabel (entities : List OdkEntity) : List (String × String) :=
  entities.filterMap (fun e => if e.label ≠ "" then some (e.label, e.uuid) else none)

/-- Per-record outcome of the match loop (lines 146–165). -/
inductive RecOutcome where
  | alreadyMatch
  | update (newId : String)
  | noMatch
deriving DecidableEq

/-- One iteration of the match loop for location `loc` against the
label map `m`. -/
def reconcileOne (m : List (String × String)) (loc : PgLocation) : RecOutcome :=
  match lookupLast m loc.nama with
  | none => .noMatch
  | some odkUuid =>
    if loc.currentEntityId = some odkUuid then .alreadyMatch else .update odkUuid

/-- The identifier update emitted for `loc`, if any (the argument pair
passed to `update_pg_entity_id`). -/
def emitUpdate (m : List (String × String)) (loc : PgLocation) :
    Option (String × String) :=
  match reconcileOne m loc with
  | .update u => some (loc.id, u)
  | _ => none

/-- `reconcile`: the list of `(location_id, new_entity_id)` updates the
run issues, in loop order. -/
def reconcileUpdates (entities : List OdkEntity) (locs : List PgLocation) :
    List (String × String) :=
  locs.filterMap (emitUpdate (odkByLabel entities))

/-- The ids reported as having no ODK match (`no_match`, line 165). -/
def reconcileUnmatched (entities : List OdkEntity) (locs : List PgLocation) :
    List String :=
  locs.filterMap (fun loc =>
    if reconcileOne (odkByLabel entities) loc = .noMatch then some loc.nama else none)

/-- Applying the emitted updates to the relational store:
`update_pg_entity_id` sets `_entity_id` of every row whose id matches,
one SQL UPDATE per emitted pair, in order — so for a given row the last
emitted pair with its id wins. -/
def applyUpdates (locs : List PgLocation) (updates : List (String × String)) :
    List PgLocation :=
  locs.map (fun l =>
    match lookupLast updates l.id with
    | some u => { l with currentEntityId := some u }
    | none => l)

/-! ## Property Sync Engine (`update_odk_entities.py`)

`get_pg_data_via_docker` (lines 187–207) turns each JSON row into a
string-valued dict: the `entity_id` key is popped and used as the outer
key (rows with a falsy `entity_id` are dropped), every remaining `None`
becomes `''` and every other value goes through `str(...)`.

`main` (lines 249–293) then decides per ODK entity: skip when there is
no PG row or the PG row has an empty `nama_posko`; otherwise update iff
some PG value is non-empty where the ODK value is empty, or the label
differs — and in that case it submits the ENTIRE PG dict as the PATCH
body together with the freshly fetched base version. -/

/-- A value of the JSON row produced by the SQL query, as decoded by
`json.loads`. -/
inductive PgValue where
  | null
  | s (v : String)
  | i (n : Int)
  | b (v : Bool)
deriving DecidableEq

/-- Python `str(...)` on a decoded JSON value. -/
def pyStr : PgValue → String
  | .null => "None"
  | .s v => v
  | .i n => toString n
  | .b true => "True"
  | .b false => "False"

/-- Python truthiness of a decoded JSON value. -/
def pyTruthy : PgValue → Bool
  | .null => false
  | .s v => v ≠ ""
  | .i n => n ≠ 0
  | .b v => v

/-- Lines 196–201: `None` becomes `''`, anything else `str(v)`. -/
def cleanVal : PgValue → String
  | .null => ""
  | v => pyStr v

/-- The `clean_data` dict built from one row (after `entity_id` was
popped). -/
def cleanRow (row : List (String × PgValue)) : List (String × String) :=
  row.map (fun kv => (kv.1, cleanVal kv.2))

/-- `get_pg_data_via_docker`'s result (lines 187–207): outer dict keyed
by the popped, truthy `entity_id`; rows without one are dropped. -/
def pgDataFromRows (rows : List (List (String × PgValue))) :
    List (String × List (String × String)) :=
  rows.filterMap (fun row =>
    match lookupLast row "entity_id" with
    | none => none
    | some v =>
      if pyTruthy v then
        some (pyStr v, cleanRow (row.filter (fun kv => kv.1 ≠ "entity_id")))
      else none)

/-- What `main`'s loop body does with one ODK entity (lines 249–293). -/
inductive SyncOutcome where
  | noPgData
  | noChangeNeeded
  | submitted (label : String) (data : List (String × String)) (baseVersion : Nat)
deriving DecidableEq

/-- Line 267–275: some PG value is non-empty where the ODK value is
empty, or the stored label differs from the PG label. -/
def needsUpdate (locData : List (String × String)) (e : OdkEntity) (label : String) :
    Bool :=
  locData.any (fun kv => ((lookupLast e.data kv.1).getD "" = "") ∧ kv.2 ≠ "") ||
    e.label ≠ label

/-- One iteration of `main`'s update loop (lines 249–293).  `versionOf`
stands for `get_entity_version`, an external read; when an update is
needed the PATCH body is the label and the FULL PG dict `locData`. -/
def syncStep (pgData : List (String × List (String × String)))
    (versionOf : String → Nat) (e : OdkEntity) : SyncOutcome :=
  match lookupLast pgData e.uuid with
  | none => .noPgData
  | some locData =>
    let label := (lookupLast locData "nama_posko").getD ""
    if label = "" then .noPgData
    else if needsUpdate locData e label then
      .submitted label locData (versionOf e.uuid)
    else .noChangeNeeded

/-- The write calls (PATCH payloads) an outcome causes: only the
`submitted` branch reaches `update_entity`. -/
def writesOf : SyncOutcome → List (String × List (String × String) × Nat)
  | .submitted label data v => [(label, data, v)]
  | _ => []

/-! ## `update_entity` status handling

Both `update_odk_entities.update_entity` (lines 56–76) and
`ODKCentralClient.update_entity` (update_faskes_kecamatan_desa.py lines
92–110) return `(True, None)` on HTTP 200/201 and
`(False, "Status {code}: {text[:200]}")` on anything else. -/

/-- The value `update_entity` returns: `(True, None)` or
`(False, message)`. -/
inductive UpdateResult where
  | ok
  | err (msg : String)
deriving DecidableEq

/-- `update_entity`'s handling of the platform's HTTP response. -/
def updateEntityResult (status : Nat) (body : String) : UpdateResult :=
  if status = 200 ∨ status = 201 then .ok
  else .err ("Status " ++ toString status ++ ": " ++ body.take 200)

/-- Modelled from the spec (§4.4): the four-outcome result space the
specification prescribes for the sync operation. -/
inductive SpecOutcome where
  | noChangeNeeded
  | updated
  | versionConflict
  | failed (reason : String)
deriving DecidableEq

/-- The only refinement of the code's two-valued `update_entity` result
into the spec's outcome space that the code supports: success maps to
`updated`, every rejection to `failed` with the message the code built —
the code has no branch producing a separate version-conflict value. -/
def specOutcomeOfResult : UpdateResult → SpecOutcome
  | .ok => .updated
  | .err m => .failed m

/-! ## Claims -/

/-- **C4** — counterexample.  The claim says `normalize(normalize(x)) =
normalize(x)` for every `x`, but the administrative-prefix substitution
is anchored and fires at most once per call: `normalize_name("desa desa
aceh")` strips one `desa` and returns `"desa aceh"`, and a second
application strips the next one, returning `"aceh"`. -/
theorem c4_counterexample :
    normalizeName (normalizeName "desa desa aceh") ≠ normalizeName "desa desa aceh" ∧
    normalizeName "desa desa aceh" = "desa aceh" ∧
    normalizeName "desa aceh" = "aceh" := by decide

/-- **C4** (amended) — `normalize_name` and `normalize_for_fuzzy` are
total and return `""` on empty input without raising, but neither is
idempotent: a second application of `normalize_name` can strip a further
administrative prefix (or re-collapse whitespace left behind by
punctuation removal), and a second application of `normalize_for_fuzzy`
can rewrite a digraph that an earlier substitution recreated
(`"ddjj" → "djj" → "jj"`). -/
theorem c4_total_not_idempotent :
    normalizeName "" = "" ∧ normalizeForFuzzy "" = "" ∧
    (∃ x, normalizeName (normalizeName x) ≠ normalizeName x) ∧
    (∃ x, normalizeForFuzzy (normalizeForFuzzy x) ≠ normalizeForFuzzy x) :=
  ⟨rfl, rfl, ⟨"desa desa aceh", by decide⟩, ⟨"ddjj", by decide⟩⟩

set_option maxRecDepth 8192 in
/-- **C7** — counterexample.  A stale-version rejection (the platform
answers HTTP 409 to the PATCH) flows through the same `else` branch of
`update_entity` as every other rejection and comes back as the generic
failure value `(False, "Status 409: …")`; the code has no branch that
could produce a distinct `VersionConflict` outcome, so mapping its
result into the spec's outcome space yields `Failed`, not
`VersionConflict`, for the version-mismatch status. -/
theorem c7_counterexample :
    specOutcomeOfResult (updateEntityResult 409 "version conflict") =
      SpecOutcome.failed "Status 409: version conflict" ∧
    specOutcomeOfResult (updateEntityResult 409 "version conflict") ≠
      SpecOutcome.versionConflict ∧
    specOutcomeOfResult (updateEntityResult 500 "boom") =
      SpecOutcome.failed "Status 500: boom" := by decide

/-- **C7** (amended) — every non-2xx rejection, a stale-version 409
included, is returned as the single generic failure value carrying only
the status code and response text; version conflicts are not
distinguished from other failures, and no re-fetch-and-retry is
performed (the loop moves on to the next entity). -/
theorem c7_all_rejections_generic (status : Nat) (body : String)
    (h : ¬ (status = 200 ∨ status = 201)) :
    updateEntityResult status body =
      UpdateResult.err ("Status " ++ toString status ++ ": " ++ body.take 200) := by
  simp [updateEntityResult, h]

/-- Witness for `c7_all_rejections_generic` at the version-conflict
status 409. -/
theorem c7_witness :
    updateEntityResult 409 "conflict" =
      UpdateResult.err ("Status " ++ toString 409 ++ ": " ++ "conflict".take 200) :=
  c7_all_rejections_generic 409 "conflict" (by decide)

/-- A subdistrict code is only produced under a non-empty parent
regency code. -/
theorem resKecamatan_parent_ne_empty (lk : Lookups) (selKotaKab kecamatan : String)
    (h : resKecamatan lk selKotaKab kecamatan ≠ "") : selKotaKab ≠ "" := by
  unfold resKecamatan at h
  split at h
  · next hc => exact hc.2
  · exact absurd rfl h

/-- A village code is only produced under a non-empty parent
subdistrict code. -/
theorem resDesa_parent_ne_empty (lk : Lookups) (selKecamatan desa : String)
    (h : resDesa lk selKecamatan desa ≠ "") : selKecamatan ≠ "" := by
  unfold resDesa at h
  split at h
  · next hc => exact hc.2
  · exact absurd rfl h

/-- Tiny backbone A: province ACEH (11), regency KAB. ACEH BESAR (11.06,
parent 11), subdistrict KUTA BARO (11.06.15, parent 11.06). -/
def provRowsA : List CsvRow := [⟨"11", "ACEH", ""⟩]

/-- Backbone A regency rows. -/
def kabRowsA : List CsvRow := [⟨"11.06", "KAB. ACEH BESAR", "11"⟩]

/-- Backbone A subdistrict rows. -/
def kecRowsA : List CsvRow := [⟨"11.06.15", "KUTA BARO", "11.06"⟩]

/-- Lookup tables built from backbone A. -/
def lkA : Lookups := loadLocationLookups provRowsA kabRowsA kecRowsA []

/-- **C2** — counterexample.  On backbone A, a record with an EMPTY
province name and regency name `"Aceh Besar"` resolves to province `''`
(unresolved) but regency `"11.06"`: the regency lookup is keyed by
normalized name alone and is not guarded by the province's resolution,
so a record with an unresolved province does receive a regency code. -/
theorem c2_counterexample :
    (resolveFaskes lkA "" "Aceh Besar" "" "").selProvinsi = "" ∧
    (resolveFaskes lkA "" "Aceh Besar" "" "").selKotaKab = "11.06" := by decide

/-- **C2** (amended) — the ancestor requirement holds below the regency
level: a non-null village code requires a non-null subdistrict code,
and a non-null subdistrict code requires a non-null regency code; but a
regency code can be produced even when the province is empty or
unresolved, because the regency lookup is unscoped. -/
theorem c2_chain_below_regency (lk : Lookups) (p k c d : String) :
    ((resolveFaskes lk p k c d).selDesa = "" ∨ (resolveFaskes lk p k c d).selKecamatan ≠ "") ∧
    ((resolveFaskes lk p k c d).selKecamatan = "" ∨ (resolveFaskes lk p k c d).selKotaKab ≠ "") := by
  constructor
  · by_cases h : (resolveFaskes lk p k c d).selDesa = ""
    · exact Or.inl h
    · exact Or.inr (resDesa_parent_ne_empty lk _ _ h)
  · by_cases h : (resolveFaskes lk p k c d).selKecamatan = ""
    · exact Or.inl h
    · exact Or.inr (resKecamatan_parent_ne_empty lk _ _ h)

/-- Backbone B provinces: ACEH (11) and SUMATERA UTARA (12). -/
def provRowsB : List CsvRow := [⟨"11", "ACEH", ""⟩, ⟨"12", "SUMATERA UTARA", ""⟩]

/-- Backbone B regencies: the name `KAB. X` occurs under BOTH provinces. -/
def kabRowsB : List CsvRow := [⟨"11.06", "KAB. X", "11"⟩, ⟨"12.01", "KAB. X", "12"⟩]

/-- Lookup tables built from backbone B. -/
def lkB : Lookups := loadLocationLookups provRowsB kabRowsB [] []

/-- **C3** — counterexample.  On backbone B, a record naming province
`"Aceh"` (resolved code 11) and regency `"Kab. X"` receives regency code
`"12.01"` — the row whose parent province is 12, not the record's
resolved province 11 — because `lookups['kota_kab']` is keyed by name
alone (the dict entry for `KAB. X` was last overwritten by the province-12
row).  A regency name is therefore NOT matched only within its resolved
province. -/
theorem c3_counterexample :
    resolveFaskes lkB "Aceh" "Kab. X" "" "" = ⟨"11", "12.01", "", ""⟩ ∧
    (⟨"12.01", "KAB. X", "12"⟩ : CsvRow) ∈ kabRowsB ∧ ("12" : String) ≠ "11" := by decide

/-- **C3** (amended) — subdistrict and village lookups ARE keyed by the
pair (parent level's code, uppercased name), but the regency lookup is
keyed by the normalized name alone: regency resolution is entirely
independent of the record's province fields. -/
theorem c3_scoping (lk : Lookups) (p p' k c d : String) :
    (resolveFaskes lk p k c d).selKotaKab = (resolveFaskes lk p' k c d).selKotaKab ∧
    ((resolveFaskes lk p k c d).selKecamatan ≠ "" →
      lookupLast lk.kecamatan
          ((resolveFaskes lk p k c d).selKotaKab, pyUpper (pyStripStr c)) =
        some (resolveFaskes lk p k c d).selKecamatan) ∧
    ((resolveFaskes lk p k c d).selDesa ≠ "" →
      lookupLast lk.desa
          ((resolveFaskes lk p k c d).selKecamatan, pyUpper (pyStripStr d)) =
        some (resolveFaskes lk p k c d).selDesa) := by
  refine ⟨rfl, ?_, ?_⟩
  · intro h
    show lookupLast lk.kecamatan
        (resKotaKab lk (pyStripStr k), pyUpper (pyStripStr c)) =
      some (resKecamatan lk (resKotaKab lk (pyStripStr k)) (pyStripStr c))
    have h' : resKecamatan lk (resKotaKab lk (pyStripStr k)) (pyStripStr c) ≠ "" := h
    unfold resKecamatan at h' ⊢
    by_cases hc : pyStripStr c ≠ "" ∧ resKotaKab lk (pyStripStr k) ≠ ""
    · rw [if_pos hc] at h' ⊢
      cases hl : lookupLast lk.kecamatan
        (resKotaKab lk (pyStripStr k), pyUpper (pyStripStr c)) with
      | none => rw [hl] at h'; exact absurd rfl h'
      | some v => rfl
    · rw [if_neg hc] at h'; exact absurd rfl h'
  · intro h
    show lookupLast lk.desa
        (resKecamatan lk (resKotaKab lk (pyStripStr k)) (pyStripStr c), pyUpper (pyStripStr d)) =
      some (resDesa lk (resKecamatan lk (resKotaKab lk (pyStripStr k)) (pyStripStr c)) (pyStripStr d))
    have h' : resDesa lk (resKecamatan lk (resKotaKab lk (pyStripStr k)) (pyStripStr c)) (pyStripStr d) ≠ "" := h
    unfold resDesa at h' ⊢
    by_cases hc : pyStripStr d ≠ "" ∧
        resKecamatan lk (resKotaKab lk (pyStripStr k)) (pyStripStr c) ≠ ""
    · rw [if_pos hc] at h' ⊢
      cases hl : lookupLast lk.desa
        (resKecamatan lk (resKotaKab lk (pyStripStr k)) (pyStripStr c), pyUpper (pyStripStr d)) with
      | none => rw [hl] at h'; exact absurd rfl h'
      | some v => rfl
    · rw [if_neg hc] at h'; exact absurd rfl h'

/-- Witness for `c3_scoping`: on backbone A the resolved subdistrict
`11.06.15` is indeed found under the key pair `("11.06", "KUTA BARO")`. -/
theorem c3_witness :
    lookupLast lkA.kecamatan
        ((resolveFaskes lkA "Aceh" "Kab. Aceh Besar" "Kuta Baro" "").selKotaKab,
          pyUpper (pyStripStr "Kuta Baro")) =
      some (resolveFaskes lkA "Aceh" "Kab. Aceh Besar" "Kuta Baro" "").selKecamatan :=
  (c3_scoping lkA "Aceh" "Aceh" "Kab. Aceh Besar" "Kuta Baro" "").2.1 (by decide)

/-- **C8** — counterexample.  On backbone A the input subdistrict name
`"Kutabaro"` has the same fuzzy key as the backbone row `KUTA BARO`
under the record's resolved regency `11.06`, yet `load_faskes_data`
leaves the subdistrict unresolved: the hierarchical resolver performs
only the exact uppercased lookup and never attempts a fuzzy-key
fallback at any level. -/
theorem c8_counterexample :
    normalizeForFuzzy "Kutabaro" = normalizeForFuzzy "KUTA BARO" ∧
    (⟨"11.06.15", "KUTA BARO", "11.06"⟩ : CsvRow) ∈ kecRowsA ∧
    (resolveFaskes lkA "Aceh" "Kab. Aceh Besar" "Kutabaro" "").selKotaKab = "11.06" ∧
    (resolveFaskes lkA "Aceh" "Kab. Aceh Besar" "Kutabaro" "").selKecamatan = "" := by
  decide

/-- **C8** (amended) — a fuzzy-key fallback after an exact miss exists
only in the desa-repair script (`lookup_kecamatan_from_desa.main`), and
there it is keyed by the transformed name alone, not by a parent code;
the hierarchical resolver of `update_faskes_kecamatan_desa` performs
exact uppercased lookups only. -/
theorem c8_fuzzy_fallback (ex fz : List (String × DesaInfo)) (d : String) :
    (lookupLast ex (normalizeName d) = none →
      lookupDesaInfo ex fz d = lookupLast fz (normalizeForFuzzy d)) ∧
    (∀ info, lookupLast ex (normalizeName d) = some info →
      lookupDesaInfo ex fz d = some info) := by
  constructor
  · intro h
    simp only [lookupDesaInfo, h]
  · intro info h
    simp only [lookupDesaInfo, h]

/-- Witness for `c8_fuzzy_fallback`: with an empty exact dict (a
guaranteed exact miss) the fuzzy dict is consulted and finds
`"Kutabaro"` under its fuzzy key. -/
theorem c8_witness :
    lookupDesaInfo [] [("kutabaro", ⟨"11.06", "KUTA BARO"⟩)] "Kutabaro" =
      lookupLast [("kutabaro", (⟨"11.06", "KUTA BARO"⟩ : DesaInfo))]
        (normalizeForFuzzy "Kutabaro") :=
  (c8_fuzzy_fallback [] [("kutabaro", ⟨"11.06", "KUTA BARO"⟩)] "Kutabaro").1 rfl

/-- **C6** — for every record of the (non-deleted) location snapshot:
a name absent from the label map is reported unmatched and emits no
update; a stored identifier equal to the found uuid is a no-op; a
differing stored identifier (a null one included, since
`none ≠ some u`) emits exactly the one update pairing the record with
the found identifier, and that pair is in the run's update list. -/
theorem c6_reconcile_cases (entities : List OdkEntity) (locs : List PgLocation)
    (loc : PgLocation) (hmem : loc ∈ locs) :
    (lookupLast (odkByLabel entities) loc.nama = none →
      reconcileOne (odkByLabel entities) loc = .noMatch ∧
      emitUpdate (odkByLabel entities) loc = none ∧
      loc.nama ∈ reconcileUnmatched entities locs) ∧
    (∀ u, lookupLast (odkByLabel entities) loc.nama = some u →
      loc.currentEntityId = some u →
      reconcileOne (odkByLabel entities) loc = .alreadyMatch ∧
      emitUpdate (odkByLabel entities) loc = none) ∧
    (∀ u, lookupLast (odkByLabel entities) loc.nama = some u →
      loc.currentEntityId ≠ some u →
      emitUpdate (odkByLabel entities) loc = some (loc.id, u) ∧
      (loc.id, u) ∈ reconcileUpdates entities locs) := by
  refine ⟨?_, ?_, ?_⟩
  · intro h
    have r : reconcileOne (odkByLabel entities) loc = .noMatch := by
      simp only [reconcileOne, h]
    refine ⟨r, by simp only [emitUpdate, r], ?_⟩
    exact List.mem_filterMap.mpr ⟨loc, hmem, by rw [if_pos r]⟩
  · intro u hu hc
    have r : reconcileOne (odkByLabel entities) loc = .alreadyMatch := by
      simp only [reconcileOne, hu, if_pos hc]
    exact ⟨r, by simp only [emitUpdate, r]⟩
  · intro u hu hc
    have r : reconcileOne (odkByLabel entities) loc = .update u := by
      simp only [reconcileOne, hu, if_neg hc]
    have he : emitUpdate (odkByLabel entities) loc = some (loc.id, u) := by
      simp only [emitUpdate, r]
    exact ⟨he, List.mem_filterMap.mpr ⟨loc, hmem, he⟩⟩

/-- The one ODK entity of the C6 witness scenario. -/
def entsC6 : List OdkEntity := [⟨"A1", "Posko Blang", []⟩]

/-- The one location of the C6 witness scenario: same name, stored
identifier still null. -/
def locC6 : PgLocation := ⟨"1", "Posko Blang", none⟩

/-- Witness for `c6_reconcile_cases`: a record with a null stored
identifier whose name is in the label map gets the one update pairing
it with `"A1"`. -/
theorem c6_witness :
    emitUpdate (odkByLabel entsC6) locC6 = some (locC6.id, "A1") ∧
    (locC6.id, "A1") ∈ reconcileUpdates entsC6 [locC6] :=
  (c6_reconcile_cases entsC6 [locC6] locC6 (by decide)).2.2 "A1" (by decide) (by decide)

/-- Anatomy of an emitted update: its key is the record's id, the uuid
is the one found for the record's name, and it differed from the stored
identifier. -/
theorem emitUpdate_some_elim (m : List (String × String)) (l : PgLocation)
    (p : String × String) (h : emitUpdate m l = some p) :
    p.1 = l.id ∧ lookupLast m l.nama = some p.2 ∧ l.currentEntityId ≠ some p.2 := by
  unfold emitUpdate at h
  cases hr : reconcileOne m l with
  | noMatch => rw [hr] at h; cases h
  | alreadyMatch => rw [hr] at h; cases h
  | update u =>
    rw [hr] at h
    have hp : (l.id, u) = p := Option.some.inj h
    cases hlk : lookupLast m l.nama with
    | none => simp only [reconcileOne, hlk] at hr; exact RecOutcome.noConfusion hr
    | some u' =>
      simp only [reconcileOne, hlk] at hr
      by_cases hcur : l.currentEntityId = some u'
      · rw [if_pos hcur] at hr; exact RecOutcome.noConfusion hr
      · rw [if_neg hcur] at hr
        have hu : u' = u := by cases hr; rfl
        subst hu
        refine ⟨?_, ?_, ?_⟩
        · rw [← hp]
        · rw [← hp]
        · rw [← hp]; exact hcur

/-- With pairwise-distinct record ids, the update list's binding for a
record's id is exactly what that record itself emitted. -/
theorem lookupLast_updates (m : List (String × String)) (locs : List PgLocation)
    (hnd : (locs.map PgLocation.id).Nodup) (loc : PgLocation) (hmem : loc ∈ locs) :
    lookupLast (locs.filterMap (emitUpdate m)) loc.id = (emitUpdate m loc).map Prod.snd := by
  induction locs with
  | nil => cases hmem
  | cons a rest ih =>
    have hnda := List.nodup_cons.mp hnd
    rcases List.mem_cons.mp hmem with heq | hmemr
    · subst heq
      have hnone : lookupLast (rest.filterMap (emitUpdate m)) loc.id = none := by
        apply lookupLast_eq_none
        intro p hp
        rcases List.mem_filterMap.mp hp with ⟨l, hl, hfl⟩
        rw [(emitUpdate_some_elim m l p hfl).1]
        intro hcontra
        exact hnda.1 (hcontra ▸ List.mem_map_of_mem PgLocation.id hl)
      cases he : emitUpdate m loc with
      | none =>
        simp only [List.filterMap_cons, he, Option.map_none']
        exact hnone
      | some p =>
        simp only [List.filterMap_cons, he, Option.map_some']
        rw [lookupLast_cons, hnone, (emitUpdate_some_elim m loc p he).1]
        simp
    · have hne : loc.id ≠ a.id := by
        intro hcontra
        exact hnda.1 (hcontra ▸ List.mem_map_of_mem PgLocation.id hmemr)
      cases he : emitUpdate m a with
      | none =>
        simp only [List.filterMap_cons, he]
        exact ih hnda.2 hmemr
      | some p =>
        simp only [List.filterMap_cons, he]
        rw [lookupLast_cons, ih hnda.2 hmemr]
        cases he2 : emitUpdate m loc with
        | some q => simp
        | none =>
          simp only [Option.map_none']
          rw [(emitUpdate_some_elim m a p he).1]
          simp [hne.symm]

/-- **C5** — reconciliation is idempotent: run the match loop, apply
every emitted `(id, uuid)` pair to the store (`update_pg_entity_id`
rewrites `_entity_id` of the row with that id; for one row the last
pair with its id wins), and run the loop again against the same
entities: the second run emits no update.  The hypothesis that record
ids are pairwise distinct is the relational store's primary-key
invariant on `locations.id`. -/
theorem c5_reconcile_idempotent (entities : List OdkEntity) (locs : List PgLocation)
    (hnd : (locs.map PgLocation.id).Nodup) :
    reconcileUpdates entities (applyUpdates locs (reconcileUpdates entities locs)) = [] := by
  unfold reconcileUpdates applyUpdates
  rw [List.filterMap_map, List.filterMap_eq_nil_iff]
  intro loc hmem
  have hlk := lookupLast_updates (odkByLabel entities) locs hnd loc hmem
  simp only [Function.comp_apply]
  cases he : emitUpdate (odkByLabel entities) loc with
  | none =>
    rw [he, Option.map_none'] at hlk
    rw [hlk]
    exact he
  | some p =>
    rw [he, Option.map_some'] at hlk
    rw [hlk]
    rcases emitUpdate_some_elim (odkByLabel entities) loc p he with ⟨-, hfound, -⟩
    have hro : reconcileOne (odkByLabel entities)
        { loc with currentEntityId := some p.2 } = .alreadyMatch := by
      unfold reconcileOne
      simp only
      rw [hfound]
      simp
    simp only [emitUpdate, hro]

/-- ODK entities of the C5 witness scenario. -/
def entsC5 : List OdkEntity := [⟨"A1", "Posko Blang", []⟩, ⟨"A2", "Posko Utama", []⟩]

/-- Locations of the C5 witness scenario: one stale identifier, one
null, one with no ODK counterpart. -/
def locsC5 : List PgLocation :=
  [⟨"1", "Posko Blang", some "OLD"⟩, ⟨"2", "Posko Utama", none⟩, ⟨"3", "Posko Lain", some "Z"⟩]

/-- Witness for `c5_reconcile_idempotent` on the concrete scenario. -/
theorem c5_witness :
    reconcileUpdates entsC5 (applyUpdates locsC5 (reconcileUpdates entsC5 locsC5)) = [] :=
  c5_reconcile_idempotent entsC5 locsC5 (by decide)

/-- PG data of the C1 counterexample: entity `u1`'s row carries `"Y"`
for field `f` (where ODK has a non-empty `"X"`) and `"Z"` for field `g`
(empty in ODK, which is what triggers the update). -/
def pgC1 : List (String × List (String × String)) :=
  [("u1", [("nama_posko", "L"), ("f", "Y"), ("g", "Z")])]

/-- ODK entity of the C1 counterexample: label matches, field `f`
non-empty. -/
def entC1 : OdkEntity := ⟨"u1", "L", [("nama_posko", "L"), ("f", "X")]⟩

/-- **C1** — counterexample.  The update is triggered only by the gap
at `g`, but the PATCH body submitted is the ENTIRE PostgreSQL dict
`loc_data`, which carries `"Y"` for `f` even though the entity's
external value for `f` is the non-empty `"X"`: the submitted map does
not preserve the existing non-empty external value, it replaces it
with the relational store's value. -/
theorem c1_counterexample :
    syncStep pgC1 (fun _ => 3) entC1 =
      .submitted "L" [("nama_posko", "L"), ("f", "Y"), ("g", "Z")] 3 ∧
    lookupLast entC1.data "f" = some "X" ∧ ("X" : String) ≠ "" ∧
    lookupLast [("nama_posko", "L"), ("f", "Y"), ("g", "Z")] "f" = some "Y" ∧
    ("Y" : String) ≠ "X" := by decide

/-- **C1** (amended) — when an update is submitted, the submitted map
is the relational store's entire property map for the entity (not a
merge that preserves non-empty external values), and the submission is
triggered only when some store value is non-empty where the external
value is empty, or the label differs. -/
theorem c1_submitted_map (pgData : List (String × List (String × String)))
    (versionOf : String → Nat) (e : OdkEntity) (label : String)
    (d : List (String × String)) (ver : Nat)
    (h : syncStep pgData versionOf e = .submitted label d ver) :
    lookupLast pgData e.uuid = some d ∧
    label = (lookupLast d "nama_posko").getD "" ∧
    (d.any (fun kv => ((lookupLast e.data kv.1).getD "" = "") ∧ kv.2 ≠ "") ∨
      e.label ≠ label) := by
  unfold syncStep at h
  cases hlk : lookupLast pgData e.uuid with
  | none => rw [hlk] at h; cases h
  | some locData =>
    rw [hlk] at h
    simp only at h
    by_cases hlbl : (lookupLast locData "nama_posko").getD "" = ""
    · rw [if_pos hlbl] at h; cases h
    · rw [if_neg hlbl] at h
      by_cases hnu : needsUpdate locData e ((lookupLast locData "nama_posko").getD "")
      · rw [if_pos hnu] at h
        cases h
        refine ⟨rfl, rfl, ?_⟩
        unfold needsUpdate at hnu
        rcases Bool.or_eq_true _ _ |>.mp hnu with hany | hne
        · left
          rcases List.any_eq_true.mp hany with ⟨kv, hkv, hh⟩
          exact List.any_eq_true.mpr ⟨kv, hkv, hh⟩
        · right
          exact decide_eq_true_eq.mp hne
      · rw [if_neg hnu] at h; cases h

/-- Witness for `c1_submitted_map` at the C1 scenario. -/
theorem c1_witness :
    lookupLast pgC1 entC1.uuid =
      some [("nama_posko", "L"), ("f", "Y"), ("g", "Z")] ∧
    ("L" : String) =
      (lookupLast [("nama_posko", "L"), ("f", "Y"), ("g", "Z")] "nama_posko").getD "" ∧
    (List.any [("nama_posko", "L"), ("f", "Y"), ("g", "Z")]
        (fun kv => ((lookupLast entC1.data kv.1).getD "" = "") ∧ kv.2 ≠ "") ∨
      entC1.label ≠ "L") :=
  c1_submitted_map pgC1 (fun _ => 3) entC1 "L"
    [("nama_posko", "L"), ("f", "Y"), ("g", "Z")] 3 (by decide)

/-- **C9** — counterexample.  A pair whose computed label is empty (the
store row has no usable `nama_posko`) satisfies the claim's hypotheses
— the computed label `''` equals the entity's label `''`, and the store
map has no non-empty field — yet the loop classifies it as "no PG
data" (line 261–263), not as the no-change skip, so the claim's
conclusion `NoChangeNeeded` fails (zero writes still hold). -/
theorem c9_counterexample :
    (lookupLast [("jumlah_kk", "")] "nama_posko").getD "" =
      (⟨"u", "", []⟩ : OdkEntity).label ∧
    List.all [("jumlah_kk", "")]
      (fun kv => kv.2 = "" ||
        (lookupLast (⟨"u", "", []⟩ : OdkEntity).data kv.1).getD "" ≠ "") = true ∧
    syncStep [("u", [("jumlah_kk", "")])] (fun _ => 1) ⟨"u", "", []⟩ =
      SyncOutcome.noPgData ∧
    SyncOutcome.noPgData ≠ SyncOutcome.noChangeNeeded ∧
    writesOf (syncStep [("u", [("jumlah_kk", "")])] (fun _ => 1) ⟨"u", "", []⟩) = [] := by
  decide

/-- **C9** (amended) — for every location/entity pair whose computed
label is NON-EMPTY, equals the entity's current label, and whose every
non-empty relational field already has a non-empty external value, the
step returns the no-change skip and issues zero write calls; a pair
with an empty computed label is instead counted as having no usable
store data (also with zero writes). -/
theorem c9_no_change_no_writes (pgData : List (String × List (String × String)))
    (versionOf : String → Nat) (e : OdkEntity) (locData : List (String × String))
    (hfound : lookupLast pgData e.uuid = some locData)
    (hlabel : (lookupLast locData "nama_posko").getD "" = e.label)
    (hne : e.label ≠ "")
    (hfields : ∀ kv ∈ locData, kv.2 ≠ "" → (lookupLast e.data kv.1).getD "" ≠ "") :
    syncStep pgData versionOf e = .noChangeNeeded ∧
    writesOf (syncStep pgData versionOf e) = [] := by
  have hstep : syncStep pgData versionOf e = .noChangeNeeded := by
    unfold syncStep
    rw [hfound]
    simp only
    rw [hlabel, if_neg hne]
    have hnu : needsUpdate locData e e.label = false := by
      unfold needsUpdate
      rw [Bool.or_eq_false_iff]
      constructor
      · rw [List.any_eq_false]
        intro kv hkv
        simp only [decide_eq_true_eq, not_and]
        intro hodk
        by_cases hv : kv.2 = ""
        · intro hc; exact hc hv
        · exact absurd hodk (hfields kv hkv hv)
      · simp
    rw [hnu]
    simp
  exact ⟨hstep, by rw [hstep]; rfl⟩

/-- Witness for `c9_no_change_no_writes`: label matches and the one
non-empty store field is already non-empty externally. -/
theorem c9_witness :
    syncStep [("u", [("nama_posko", "P"), ("jumlah_kk", "5")])] (fun _ => 1)
        ⟨"u", "P", [("nama_posko", "P"), ("jumlah_kk", "7")]⟩ = .noChangeNeeded ∧
    writesOf (syncStep [("u", [("nama_posko", "P"), ("jumlah_kk", "5")])] (fun _ => 1)
        ⟨"u", "P", [("nama_posko", "P"), ("jumlah_kk", "7")]⟩) = [] :=
  c9_no_change_no_writes [("u", [("nama_posko", "P"), ("jumlah_kk", "5")])] (fun _ => 1)
    ⟨"u", "P", [("nama_posko", "P"), ("jumlah_kk", "7")]⟩
    [("nama_posko", "P"), ("jumlah_kk", "5")] (by decide) (by decide) (by decide)
    (by decide)

/-- A successful lookup returns a binding present in the list. -/
theorem lookupLast_mem {κ α : Type} [DecidableEq κ] (l : List (κ × α)) (k : κ) (v : α)
    (h : lookupLast l k = some v) : (k, v) ∈ l := by
  induction l with
  | nil => cases h
  | cons p rest ih =>
    rw [lookupLast_cons] at h
    cases hr : lookupLast rest k with
    | some w =>
      rw [hr] at h
      cases h
      exact List.mem_cons_of_mem p (ih hr)
    | none =>
      rw [hr] at h
      by_cases hp : p.1 = k
      · rw [if_pos hp] at h
        have h2 : p.2 = v := Option.some.inj h
        have hpe : (k, v) = p := by rw [← hp, ← h2]
        rw [hpe]
        exact List.mem_cons_self p rest
      · rw [if_neg hp] at h
        cases h

/-- A submitted PATCH body is exactly the PG dict stored under the
entity's uuid. -/
theorem syncStep_submitted_lookup (pgData : List (String × List (String × String)))
    (versionOf : String → Nat) (e : OdkEntity) (label : String)
    (d : List (String × String)) (ver : Nat)
    (h : syncStep pgData versionOf e = .submitted label d ver) :
    lookupLast pgData e.uuid = some d := by
  unfold syncStep at h
  cases hlk : lookupLast pgData e.uuid with
  | none => rw [hlk] at h; cases h
  | some locData =>
    rw [hlk] at h
    simp only at h
    by_cases hlbl : (lookupLast locData "nama_posko").getD "" = ""
    · rw [if_pos hlbl] at h; cases h
    · rw [if_neg hlbl] at h
      by_cases hnu : needsUpdate locData e ((lookupLast locData "nama_posko").getD "")
      · rw [if_pos hnu] at h; cases h; rfl
      · rw [if_neg hnu] at h; cases h

/-- **C10** — every property map the step submits is a value of
`get_pg_data_via_docker`'s result, i.e. a cleaned row: the `clean_data`
loop maps `None` to `''` and every other decoded value through
`str(...)`, key by key, BEFORE the change detection and the submission
ever see the data. -/
theorem c10_submitted_maps_are_cleaned_rows :
    cleanVal PgValue.null = "" ∧
    (∀ v : PgValue, v ≠ PgValue.null → cleanVal v = pyStr v) ∧
    (∀ (row : List (String × PgValue)) (k : String) (v : PgValue),
      (k, v) ∈ row → (k, cleanVal v) ∈ cleanRow row) ∧
    (∀ (rows : List (List (String × PgValue))) (versionOf : String → Nat)
        (e : OdkEntity) (label : String) (d : List (String × String)) (ver : Nat),
      syncStep (pgDataFromRows rows) versionOf e = .submitted label d ver →
      ∃ row ∈ rows, d = cleanRow (row.filter (fun kv => kv.1 ≠ "entity_id"))) := by
  refine ⟨rfl, ?_, ?_, ?_⟩
  · intro v hv
    cases v with
    | null => exact absurd rfl hv
    | s w => rfl
    | i n => rfl
    | b w => rfl
  · intro row k v hkv
    exact List.mem_map_of_mem (fun kv => (kv.1, cleanVal kv.2)) hkv
  · intro rows versionOf e label d ver h
    have hmem : (e.uuid, d) ∈ pgDataFromRows rows :=
      lookupLast_mem _ _ _
        (syncStep_submitted_lookup (pgDataFromRows rows) versionOf e label d ver h)
    rcases List.mem_filterMap.mp hmem with ⟨row, hrow, hf⟩
    cases hlk : lookupLast row "entity_id" with
    | none => rw [hlk] at hf; cases hf
    | some v =>
      rw [hlk] at hf
      simp only at hf
      by_cases ht : pyTruthy v
      · rw [if_pos ht] at hf
        have hpair := Option.some.inj hf
        exact ⟨row, hrow, (congrArg Prod.snd hpair).symm⟩
      · rw [if_neg ht] at hf; cases hf

/-- The one PG row of the C10 witness scenario: a text `entity_id`, a
text `nama_posko` and a SQL NULL `jumlah_kk`. -/
def rowsC10 : List (List (String × PgValue)) :=
  [[("entity_id", PgValue.s "u"), ("nama_posko", PgValue.s "P"), ("jumlah_kk", PgValue.null)]]

/-- Witness for `c10_submitted_maps_are_cleaned_rows`: the submitted
map for entity `u` (update triggered by the label difference) is the
cleaned row, with the NULL turned into `''`. -/
theorem c10_witness :
    ∃ row ∈ rowsC10,
      [("nama_posko", "P"), ("jumlah_kk", "")] =
        cleanRow (row.filter (fun kv => kv.1 ≠ "entity_id")) :=
  c10_submitted_maps_are_cleaned_rows.2.2.2 rowsC10 (fun _ => 7) ⟨"u", "Q", []⟩ "P"
    [("nama_posko", "P"), ("jumlah_kk", "")] 7 (by decide)
